import Mathlib

/-!
Shallow embedding of the emergency-alert orchestrator in `app.py`
(Women-Safety-Thoothukudi-Police-Hackathon).

The Python source talks to external services (IP geolocation, HERE reverse
geocoding, SMTP) and devices (microphone, camera).  Each external interaction
is modelled as an explicit input describing its outcome, so every function of
the source becomes a total Lean function of (its arguments × the environment's
behaviour).  A Python function "never raises" exactly when its embedding is a
total function: every branch of the source either returns or is wrapped in a
`try/except` whose handler returns, and that structure is mirrored here.

Floats are modelled as rationals (the claims only involve exact values such as
0.0), and Python float rendering inside f-strings is abstracted by `pyShow`;
no claim depends on the digit strings of the rendering.
-/

/-- Rendering of an optional coordinate inside a Python f-string: `None`
renders as the text None, a number by its decimal form (abstracted here by
`toString` on the rational). -/
def pyShow : Option ℚ → String
  | none => "None"
  | some q => toString q

/-- The fallback label `f"Coordinates: {latitude}, {longitude}"` built at
lines 48, 59, 63 and 67 of `app.py`. -/
def coordFallback (lat lon : Option ℚ) : String :=
  "Coordinates: " ++ pyShow lat ++ ", " ++ pyShow lon

/-- Python truthiness of an optional float: `None` and `0.0` are falsy. -/
def pyFalsyNum : Option ℚ → Bool
  | none => true
  | some q => decide (q = 0)

/-- Outcome of the `requests.get('https://ipinfo.io/json')` interaction in
`get_ip_location` (lines 29-35):
* `exn` — the request or `.json()` raises (network failure, non-JSON body);
* `jsonNoLoc` — JSON parses but has no `loc` key, so `data.get('loc','0,0')`
  yields the default string `0,0`;
* `jsonBadLoc` — a `loc` key is present but splitting/`float()` raises
  (malformed field);
* `jsonLoc lat lon` — the `loc` string parses into the two floats. -/
inductive IpLookup
  | exn
  | jsonNoLoc
  | jsonBadLoc
  | jsonLoc (lat lon : ℚ)
deriving DecidableEq

/-- Embedding of `get_ip_location` (lines 24-38): returns the parsed pair, and
`(None, None)` from the `except` handler on any exception.  Note the missing
`loc` key goes through the `'0,0'` default and parses to `(0.0, 0.0)`. -/
def get_ip_location : IpLookup → Option ℚ × Option ℚ
  | .exn => (none, none)
  | .jsonNoLoc => (some 0, some 0)
  | .jsonBadLoc => (none, none)
  | .jsonLoc lat lon => (some lat, some lon)

/-- The `items[0]` element of a HERE reverse-geocoding response body:
`data['items'][0]['address']` raises `KeyError` when the `address` key is
missing (caught by the `except`), and `address.get('label', …)` falls back
when the `label` key is missing. -/
inductive AddrField
  | missing
  | present (label : Option String)
deriving DecidableEq

/-- Outcome of the `requests.get(url, timeout=5)` interaction in
`reverse_geocode` (lines 52-59): either some step raises (`exn`), or an HTTP
response arrives with a status code and a parsed `items` list (a missing
`items` key is `data.get('items', [])`, the empty list). -/
inductive GeoResponse
  | exn
  | http (status : Nat) (items : List AddrField)
deriving DecidableEq

/-- Embedding of `reverse_geocode` (lines 41-67).  The guard at line 47 is
`if not api_key or not latitude or not longitude`, Python truthiness: an empty
key string, a `None` coordinate, or a `0.0` coordinate all take the fallback.
All remaining paths are inside `try/except Exception`, whose handler returns
the fallback, so the function is total. -/
def reverse_geocode (api_key : String) (latitude longitude : Option ℚ)
    (resp : GeoResponse) : String :=
  if api_key = "" ∨ pyFalsyNum latitude = true ∨ pyFalsyNum longitude = true then
    coordFallback latitude longitude
  else
    match resp with
    | .exn => coordFallback latitude longitude
    | .http status items =>
      if status = 200 then
        match items with
        | [] => coordFallback latitude longitude
        | first :: _ =>
          match first with
          | .missing => coordFallback latitude longitude
          | .present none => coordFallback latitude longitude
          | .present (some s) => s
      else coordFallback latitude longitude

/-- The label `reverse_geocode` extracts on its success path, if any: a 200
response whose first item carries an `address.label` value. -/
def successLabel : GeoResponse → Option String
  | .exn => none
  | .http status items =>
    if status = 200 then
      match items with
      | AddrField.present (some s) :: _ => some s
      | _ => none
    else none

/-- Embedding of `send_sms_alert` (lines 70-76): the disabled stub.  It ignores its
message, performs no network I/O (only a log line) and returns `True`. -/
def send_sms_alert (message : String) : Bool := true

/-- What `send_email_alert` can observe about one artifact file at
composition time: whether `os.path.exists` holds, the `os.path.getsize`
value, and whether the `open(...)/f.read()` inside the attachment `try`
raises.  `placeholderContent` is ghost state for the specification: it
records whether the file's bytes are the capture step's placeholder
stand-in; `send_email_alert` itself never consults it, exactly as the source
never does. -/
structure FileDesc where
  present : Bool
  size : Nat
  readFails : Bool
  placeholderContent : Bool
deriving DecidableEq

/-- The artifact kinds handled by the composer. -/
inductive PartKind
  | audio
  | video
deriving DecidableEq

/-- One `msg.attach(...)` call in `send_email_alert`: the plain body text, a
genuine file attachment, the note "... could not be attached due to an
error" (attachment `except` branch), or the note "... could not be created
due to device limitations" (missing/empty-file `else` branch). -/
inductive MsgPart
  | bodyText
  | attachment (kind : PartKind)
  | errorNote (kind : PartKind)
  | deviceNote (kind : PartKind)
deriving DecidableEq

/-- The artifact-kind label of a message part, `none` for the body. -/
def partKind : MsgPart → Option PartKind
  | .bodyText => none
  | .attachment k => some k
  | .errorNote k => some k
  | .deviceNote k => some k

/-- Number of parts of a message that represent the artifact of kind `k`
(attachment or either note). -/
def reprCount (parts : List MsgPart) (k : PartKind) : Nat :=
  (parts.filter (fun p => partKind p == some k)).length

/-- One attachment block of `send_email_alert` (lines 93-109 for audio,
111-127 for video): `if os.path.exists(f) and os.path.getsize(f) > 0` then
attach inside a `try` whose `except` attaches the error note; `else` attach
the device-limitations note. -/
def attachSection (k : PartKind) (f : FileDesc) : List MsgPart :=
  if f.present = true ∧ 0 < f.size then
    if f.readFails = true then [MsgPart.errorNote k] else [MsgPart.attachment k]
  else [MsgPart.deviceNote k]

/-- The sequence of `msg.attach` calls of `send_email_alert` (lines 84-127):
body text first, then the audio block, then the video block. -/
def composeParts (audio video : FileDesc) : List MsgPart :=
  [MsgPart.bodyText] ++ attachSection .audio audio ++ attachSection .video video

/-- Outcome of the SMTP interaction in `send_email_alert` (lines 130-141):
the session succeeds end to end, or one of the failure classes raises inside
the `try`. -/
inductive SmtpOutcome
  | ok
  | authError
  | connectError
  | relayRejected
deriving DecidableEq

/-- Embedding of `send_email_alert` (lines 79-141): builds the message parts, then sends;
the send `try/except` converts every SMTP exception into the return value
`False`, so the function is total and returns the composed parts together
with the per-channel boolean. -/
def send_email_alert (audio video : FileDesc) (outcome : SmtpOutcome) :
    List MsgPart × Bool :=
  (composeParts audio video,
   match outcome with
   | .ok => true
   | _ => false)

/-- Both placeholder writes of `send_alert` store 22 bytes
(`b'Placeholder audio file'` / `b'Placeholder video file'`): the file
exists, is non-empty, is readable, and its content is the stand-in. -/
def placeholderFile : FileDesc :=
  { present := true, size := 22, readFails := false, placeholderContent := true }

/-- Outcome of the microphone interaction in `send_alert` (lines 181-192):
either `sd.rec`/`sd.wait`/`sf.write` succeed — `dataBytes` is the payload
size of the written waveform, the RIFF/WAV container adding a 44-byte header
(behaviour of the `soundfile` library, outside this source) — or some step
raises and the `except` writes the 22-byte placeholder. -/
inductive AudioOutcome
  | ok (dataBytes : Nat)
  | deviceError
deriving DecidableEq

/-- The audio file left behind by the audio block of `send_alert`. -/
def captureAudio : AudioOutcome → FileDesc
  | .ok n =>
    { present := true, size := 44 + n, readFails := false, placeholderContent := false }
  | .deviceError => placeholderFile

/-- Outcome of the camera interaction in `send_alert` (lines 195-224):
* `openFail` — `cap.isOpened()` is false; the `else` writes the placeholder;
* `recorded frames header frameBytes` — the device opened, the loop wrote
  `frames` frames (possibly zero, when the first `cap.read()` fails) and the
  writer was released; the resulting file holds the container overhead
  `header` plus the frame payload — both sizes are produced by
  `cv2.VideoWriter`, which this source never inspects or constrains, so they
  are free parameters of the model;
* `exnNoFile` — an exception raised before `cv2.VideoWriter` created the
  file; the `except` sees no file and writes the placeholder;
* `exnWithFile sizeSoFar` — an exception raised after the file was created;
  `os.path.exists` holds, so the `except` leaves the partial file as is. -/
inductive VideoOutcome
  | openFail
  | recorded (frames header frameBytes : Nat)
  | exnNoFile
  | exnWithFile (sizeSoFar : Nat)
deriving DecidableEq

/-- The video file left behind by the video block of `send_alert`. -/
def captureVideo : VideoOutcome → FileDesc
  | .openFail => placeholderFile
  | .recorded frames header frameBytes =>
    { present := true, size := header + frames * frameBytes,
      readFails := false, placeholderContent := false }
  | .exnNoFile => placeholderFile
  | .exnWithFile s =>
    { present := true, size := s, readFails := false, placeholderContent := false }

/-- Embedding of `sender_password = os.environ.get("EMAIL_PASSWORD", "sugs hwmo fkxc sazi")`
at line 167 of `send_alert`: a missing environment variable is replaced by
the hardcoded default credential. -/
def resolvedSenderPassword (envVal : Option String) : String :=
  envVal.getD "sugs hwmo fkxc sazi"

/-- The environment one run of `send_alert` interacts with: the IP lookup,
the reverse-geocoding call, the `EMAIL_PASSWORD` variable, the two capture
devices and the SMTP session. -/
structure AlertEnv where
  ip : IpLookup
  geo : GeoResponse
  emailPassword : Option String
  audio : AudioOutcome
  video : VideoOutcome
  smtp : SmtpOutcome
deriving DecidableEq

/-- Result of one `send_alert` run: the early `return False` at line 160
(location failure), or the final `return email_success or sms_success` at
line 243, recorded together with the two per-channel booleans. -/
inductive AlertResult
  | locationFailed
  | completed (emailSuccess smsSuccess overall : Bool)
deriving DecidableEq

/-- Embedding of `send_alert` (lines 144-243): location resolution with the early exit at
lines 158-160, label resolution, credential lookup, the two capture blocks,
the e-mail channel and the SMS stub, returning the OR of the channels. -/
def send_alert (api_key : String) (env : AlertEnv) : AlertResult :=
  match get_ip_location env.ip with
  | (none, _) => AlertResult.locationFailed
  | (_, none) => AlertResult.locationFailed
  | (some lat, some lon) =>
    let label := reverse_geocode api_key (some lat) (some lon) env.geo
    let _senderPassword := resolvedSenderPassword env.emailPassword
    let body := "Help needed! My current location is " ++ label ++
      ". Latitude: " ++ pyShow (some lat) ++ ", Longitude: " ++ pyShow (some lon) ++
      " and do please checkout ur email!."
    let audioFile := captureAudio env.audio
    let videoFile := captureVideo env.video
    let emailSuccess := (send_email_alert audioFile videoFile env.smtp).2
    let smsSuccess := send_sms_alert body
    AlertResult.completed emailSuccess smsSuccess (emailSuccess || smsSuccess)

/-- Embedding of `emergency_sos` (lines 246-250): forwards to `send_alert`. -/
def emergency_sos (api_key : String) (env : AlertEnv) : AlertResult :=
  send_alert api_key env

theorem coordFallback_ne_empty (lat lon : Option ℚ) : coordFallback lat lon ≠ "" := by
  intro h
  have hd := congrArg String.length h
  rw [coordFallback] at hd
  simp [String.length_append] at hd
  exact absurd hd.1.1.1 (by decide)

/-- C1: counterexample.  With a configured key, valid non-zero coordinates
and a 200 response whose first item carries an empty `label` value, the code
returns that empty string verbatim — so `reverse_geocode` does not return a
non-empty label on every input. -/
theorem C1_counterexample :
    reverse_geocode "k" (some 1) (some 1)
      (GeoResponse.http 200 [AddrField.present (some "")]) = "" ∧
    ("" : String).length = 0 := by
  constructor
  · decide
  · rfl

/-- Characterization of `reverse_geocode`: the guard plus `successLabel`
determine the result. -/
theorem reverse_geocode_eq (k : String) (lat lon : Option ℚ) (resp : GeoResponse) :
    reverse_geocode k lat lon resp =
      if k = "" ∨ pyFalsyNum lat = true ∨ pyFalsyNum lon = true then
        coordFallback lat lon
      else
        match successLabel resp with
        | some s => s
        | none => coordFallback lat lon := by
  rw [reverse_geocode.eq_def]
  split
  · rfl
  · rcases resp with _ | ⟨status, items⟩
    · rfl
    · by_cases h200 : status = 200
      · subst h200
        rcases items with _ | ⟨first, rest⟩
        · simp [successLabel]
        · rcases first with _ | label
          · simp [successLabel]
          · rcases label with _ | s <;> simp [successLabel]
      · simp [successLabel, h200]

/-- C1 (amended): `reverse_geocode` is total (never raises), and on every
input it either returns the coordinate fallback — which is always non-empty,
and is what every listed fallback trigger (empty key, missing or zero
coordinate, exception, non-200 status, empty item list, missing address or
label field) produces — or the guard passed and it returns the provider's
label verbatim, which is empty exactly when the provider supplied an empty
label. -/
theorem C1_theorem (k : String) (lat lon : Option ℚ) (resp : GeoResponse) :
    (reverse_geocode k lat lon resp = coordFallback lat lon ∧
      coordFallback lat lon ≠ "") ∨
    (k ≠ "" ∧ pyFalsyNum lat = false ∧ pyFalsyNum lon = false ∧
      successLabel resp = some (reverse_geocode k lat lon resp)) := by
  rw [reverse_geocode_eq]
  by_cases hc : k = "" ∨ pyFalsyNum lat = true ∨ pyFalsyNum lon = true
  · exact Or.inl ⟨by rw [if_pos hc], coordFallback_ne_empty lat lon⟩
  · rw [if_neg hc]
    push_neg at hc
    obtain ⟨hk, hlat, hlon⟩ := hc
    rcases hs : successLabel resp with _ | s
    · exact Or.inl ⟨rfl, coordFallback_ne_empty lat lon⟩
    · refine Or.inr ⟨hk, ?_, ?_, rfl⟩
      · revert hlat
        cases pyFalsyNum lat <;> simp
      · revert hlon
        cases pyFalsyNum lon <;> simp

/-- C2: evaluation at the failing input.  The audio device fails, so the
capture step writes the 22-byte placeholder; the video device records
normally.  Because the placeholder exists and has positive size, the
composer's `os.path.exists and os.path.getsize > 0` test passes and the
placeholder is attached as a genuine attachment, with no degradation note
for the audio kind — contradicting both the claim and the source's own
status line "Sending email without audio attachment". -/
theorem C2_bug_eval :
    (captureAudio AudioOutcome.deviceError).placeholderContent = true ∧
    composeParts (captureAudio AudioOutcome.deviceError)
        (captureVideo (VideoOutcome.recorded 1 5 100)) =
      [MsgPart.bodyText, MsgPart.attachment PartKind.audio,
        MsgPart.attachment PartKind.video] := by
  decide

/-- C5: counterexample.  A well-formed lookup response without the location
field takes the `'0,0'` default and parses to the sentinel zero pair, not to
absent coordinates. -/
theorem C5_counterexample :
    get_ip_location IpLookup.jsonNoLoc = (some 0, some 0) ∧
    get_ip_location IpLookup.jsonNoLoc ≠ (none, none) := by
  constructor
  · rfl
  · decide

/-- C5 (amended): `get_ip_location` returns absent coordinates on a network
failure or a malformed response (any exception), but a response missing the
location field yields the sentinel pair (0.0, 0.0) through the `'0,0'`
default; a parsed pair is returned as is. -/
theorem C5_theorem :
    get_ip_location IpLookup.exn = (none, none) ∧
    get_ip_location IpLookup.jsonBadLoc = (none, none) ∧
    get_ip_location IpLookup.jsonNoLoc = (some 0, some 0) ∧
    ∀ lat lon : ℚ, get_ip_location (IpLookup.jsonLoc lat lon) = (some lat, some lon) :=
  ⟨rfl, rfl, rfl, fun _ _ => rfl⟩

/-- C10: with a configured key, a zero latitude or longitude is falsy in the
line-47 guard, so `reverse_geocode` returns the coordinate fallback without
consulting the geocoding response at all (the equation holds for every
response). -/
theorem C10_theorem (k : String) (lat lon : Option ℚ) (resp : GeoResponse)
    (hk : k ≠ "") (h0 : lat = some 0 ∨ lon = some 0) :
    reverse_geocode k lat lon resp = coordFallback lat lon := by
  rcases h0 with h | h
  · subst h
    rw [reverse_geocode_eq, if_pos (Or.inr (Or.inl (by decide)))]
  · subst h
    rw [reverse_geocode_eq, if_pos (Or.inr (Or.inr (by decide)))]

/-- C10: witness — a valid key and a usable provider response, yet the zero
latitude forces the fallback label. -/
theorem C10_witness :
    reverse_geocode "key" (some 0) (some 5)
      (GeoResponse.http 200 [AddrField.present (some "221B Baker Street")]) =
      coordFallback (some 0) (some 5) :=
  C10_theorem "key" (some 0) (some 5)
    (GeoResponse.http 200 [AddrField.present (some "221B Baker Street")])
    (by decide) (Or.inl rfl)

theorem attachSection_cases (k : PartKind) (f : FileDesc) :
    attachSection k f = [MsgPart.attachment k] ∨
    attachSection k f = [MsgPart.errorNote k] ∨
    attachSection k f = [MsgPart.deviceNote k] := by
  unfold attachSection
  split
  · split
    · exact Or.inr (Or.inl rfl)
    · exact Or.inl rfl
  · exact Or.inr (Or.inr rfl)

theorem reprCount_append (xs ys : List MsgPart) (k : PartKind) :
    reprCount (xs ++ ys) k = reprCount xs k + reprCount ys k := by
  simp [reprCount, List.filter_append]

theorem reprCount_attachSection_self (k : PartKind) (f : FileDesc) :
    reprCount (attachSection k f) k = 1 := by
  rcases attachSection_cases k f with h | h | h <;> rw [h] <;> cases k <;> rfl

theorem reprCount_audio_video (f : FileDesc) :
    reprCount (attachSection PartKind.audio f) PartKind.video = 0 := by
  rcases attachSection_cases PartKind.audio f with h | h | h <;> rw [h] <;> rfl

theorem reprCount_video_audio (f : FileDesc) :
    reprCount (attachSection PartKind.video f) PartKind.audio = 0 := by
  rcases attachSection_cases PartKind.video f with h | h | h <;> rw [h] <;> rfl

theorem reprCount_body (k : PartKind) : reprCount [MsgPart.bodyText] k = 0 := by
  cases k <;> rfl

/-- C3: composition is total (a total function of the two file descriptors),
the built message carries exactly one representation per artifact kind —
an attachment or a note, never both and never neither — and a read failure of
one artifact replaces only that artifact's attachment by the error note,
leaving the other kind's block unchanged. -/
theorem C3_theorem (a v : FileDesc) :
    reprCount (composeParts a v) PartKind.audio = 1 ∧
    reprCount (composeParts a v) PartKind.video = 1 ∧
    (a.readFails = true → a.present = true → 0 < a.size →
      composeParts a v =
        [MsgPart.bodyText, MsgPart.errorNote PartKind.audio] ++
          attachSection PartKind.video v) ∧
    (v.readFails = true → v.present = true → 0 < v.size →
      composeParts a v =
        [MsgPart.bodyText] ++ attachSection PartKind.audio a ++
          [MsgPart.errorNote PartKind.video]) := by
  refine ⟨?_, ?_, ?_, ?_⟩
  · rw [composeParts, reprCount_append, reprCount_append, reprCount_body,
      reprCount_attachSection_self, reprCount_video_audio]
  · rw [composeParts, reprCount_append, reprCount_append, reprCount_body,
      reprCount_attachSection_self, reprCount_audio_video]
  · intro h1 h2 h3
    have ha : attachSection PartKind.audio a = [MsgPart.errorNote PartKind.audio] := by
      unfold attachSection
      rw [if_pos ⟨h2, h3⟩, if_pos h1]
    rw [composeParts, ha]
    rfl
  · intro h1 h2 h3
    have hv : attachSection PartKind.video v = [MsgPart.errorNote PartKind.video] := by
      unfold attachSection
      rw [if_pos ⟨h2, h3⟩, if_pos h1]
    rw [composeParts, hv]

/-- C3: witness — an audio file that exists with positive size but fails to
read degrades into the error note, while the video block is untouched. -/
theorem C3_witness :
    composeParts
        { present := true, size := 5, readFails := true, placeholderContent := false }
        placeholderFile =
      [MsgPart.bodyText, MsgPart.errorNote PartKind.audio] ++
        attachSection PartKind.video placeholderFile :=
  (C3_theorem
    { present := true, size := 5, readFails := true, placeholderContent := false }
    placeholderFile).2.2.1 rfl rfl (by decide)

/-- Characterization of `send_alert`: the early exit is decided by the IP
lookup, and every completed run carries the e-mail boolean, the constant-true
SMS boolean, and their OR. -/
theorem send_alert_eq (k : String) (env : AlertEnv) :
    send_alert k env =
      match get_ip_location env.ip with
      | (none, _) => AlertResult.locationFailed
      | (_, none) => AlertResult.locationFailed
      | (some _, some _) =>
        AlertResult.completed
          (send_email_alert (captureAudio env.audio) (captureVideo env.video) env.smtp).2
          true
          ((send_email_alert (captureAudio env.audio) (captureVideo env.video) env.smtp).2
            || true) := by
  rw [send_alert.eq_def]
  rcases get_ip_location env.ip with ⟨_ | lat, _ | lon⟩ <;> rfl

/-- An environment in which the run reaches dispatch (the IP lookup parses)
but the e-mail channel fails to authenticate. -/
def exampleEnv : AlertEnv :=
  { ip := IpLookup.jsonLoc 1 2, geo := GeoResponse.exn, emailPassword := none,
    audio := AudioOutcome.deviceError, video := VideoOutcome.openFail,
    smtp := SmtpOutcome.authError }

/-- C4: every run of `send_alert` that reaches dispatch returns the logical
OR of the e-mail and SMS channel booleans; the SMS stub is always true, so
the overall verdict is true even when the e-mail channel fails. -/
theorem C4_theorem (k : String) (env : AlertEnv) (e s o : Bool)
    (h : send_alert k env = AlertResult.completed e s o) :
    s = true ∧ o = (e || s) ∧ o = true := by
  rw [send_alert_eq] at h
  rcases hg : get_ip_location env.ip with ⟨l, r⟩
  rw [hg] at h
  rcases l with _ | lat
  · exact absurd h (by simp)
  · rcases r with _ | lon
    · exact absurd h (by simp)
    · injection h with h1 h2 h3
      subst h1
      subst h2
      subst h3
      exact ⟨rfl, rfl, Bool.or_true _⟩

/-- C4: witness — in `exampleEnv` the e-mail channel fails, the SMS stub
succeeds, and the overall verdict is still true. -/
theorem C4_witness : (true : Bool) = true ∧ (true : Bool) = (false || true) ∧
    (true : Bool) = true :=
  C4_theorem "" exampleEnv false true true (by decide)

/-- C6: counterexample.  When the video device opens but zero frames are
ever written (the first `cap.read()` fails) and the writer emits no
container bytes, the resulting file has size 0 and no placeholder was
produced — the code writes a placeholder only in the open-failure and
exception branches, never in this one. -/
theorem C6_counterexample :
    (captureVideo (VideoOutcome.recorded 0 0 0)).size = 0 ∧
    (captureVideo (VideoOutcome.recorded 0 0 0)).placeholderContent = false := by
  decide

/-- C6 (amended): the audio step always leaves an existing non-empty file
(a 44-byte-headed waveform or the 22-byte placeholder).  The video step
always leaves an existing file, and it is the non-empty placeholder exactly
in the open-failure and file-less exception branches; when the device opens
and zero frames are written the file merely holds the writer's container
overhead (unconstrained by the source) and no placeholder is produced, and
an exception after the writer created the file leaves that partial file as
is. -/
theorem C6_theorem :
    (∀ o : AudioOutcome, (captureAudio o).present = true ∧ 0 < (captureAudio o).size) ∧
    (∀ v : VideoOutcome, (captureVideo v).present = true) ∧
    (captureVideo VideoOutcome.openFail = placeholderFile ∧
      captureVideo VideoOutcome.exnNoFile = placeholderFile ∧
      0 < placeholderFile.size) ∧
    (∀ h fb : Nat, (captureVideo (VideoOutcome.recorded 0 h fb)).size = h ∧
      (captureVideo (VideoOutcome.recorded 0 h fb)).placeholderContent = false) ∧
    (∀ s : Nat, (captureVideo (VideoOutcome.exnWithFile s)).size = s) := by
  refine ⟨?_, ?_, ⟨rfl, rfl, by decide⟩, ?_, ?_⟩
  · intro o
    cases o with
    | ok n =>
      exact ⟨rfl, Nat.lt_of_lt_of_le (by decide) (Nat.le_add_right 44 n)⟩
    | deviceError => exact ⟨rfl, by decide⟩
  · intro v
    cases v <;> rfl
  · intro h fb
    refine ⟨?_, rfl⟩
    show h + 0 * fb = h
    simp
  · intro s
    rfl

/-- C7: counterexample.  When the IP lookup raises (network failure), the
run takes the early-terminal `return False` at line 160 — the Failed path is
a live branch, not unreachable. -/
theorem C7_counterexample :
    send_alert ""
      { ip := IpLookup.exn, geo := GeoResponse.exn, emailPassword := none,
        audio := AudioOutcome.deviceError, video := VideoOutcome.openFail,
        smtp := SmtpOutcome.ok } = AlertResult.locationFailed := rfl

/-- C7 (amended): the early-terminal transition of `send_alert` is taken
exactly when the IP lookup yields an absent coordinate — which happens on
any lookup exception, before reverse geocoding is ever consulted — so it is
a live, reachable branch, and it is the only early exit. -/
theorem C7_theorem :
    (∀ (k : String) (env : AlertEnv),
      send_alert k env = AlertResult.locationFailed ↔
        ((get_ip_location env.ip).1 = none ∨ (get_ip_location env.ip).2 = none)) ∧
    (∃ env : AlertEnv, send_alert "" env = AlertResult.locationFailed) := by
  constructor
  · intro k env
    rw [send_alert_eq]
    rcases hg : get_ip_location env.ip with ⟨l, r⟩
    rcases l with _ | lat <;> rcases r with _ | lon <;> simp
  · exact ⟨⟨IpLookup.exn, GeoResponse.exn, none, AudioOutcome.deviceError,
      VideoOutcome.openFail, SmtpOutcome.ok⟩, rfl⟩

/-- C8: the e-mail channel of `send_email_alert` reports true exactly when
the SMTP session succeeds; every failure class (authentication, connection,
relay rejection) is caught and reported as false, and the embedding is a
total function — no exception propagates out of the dispatch step. -/
theorem C8_theorem (audio video : FileDesc) (o : SmtpOutcome) :
    (send_email_alert audio video o).2 = true ↔ o = SmtpOutcome.ok := by
  cases o <;> simp [send_email_alert]

/-- C9: counterexample.  With the mail credential absent from the
environment, the code substitutes the embedded default secret instead of
failing closed. -/
theorem C9_counterexample :
    resolvedSenderPassword none = "sugs hwmo fkxc sazi" ∧
    resolvedSenderPassword none ≠ "" := by
  constructor
  · rfl
  · decide

/-- C9 (amended): with the mail credential absent, the embedded default
secret "sugs hwmo fkxc sazi" is substituted and the send is attempted with
it; any resulting channel failure is caught and reported as false — never
fatal — but fail-closed without an embedded default is not what the code
does. -/
theorem C9_theorem :
    resolvedSenderPassword none = "sugs hwmo fkxc sazi" ∧
    ∀ (audio video : FileDesc) (o : SmtpOutcome),
      ((send_email_alert audio video o).2 = false ↔ o ≠ SmtpOutcome.ok) := by
  refine ⟨rfl, ?_⟩
  intro audio video o
  cases o <;> simp [send_email_alert]
